import Mathlib

set_option linter.unnecessarySeqFocus false

/-
Verification of the upload / list / get request flow of the FastAPI + S3
repository.  The repository contains several near-identical variants of the
same application; the claims cite three of them, which are embedded here:

* `FastapiS3App` — the `fastapi-s3-app` package: `app/utils/validation.py`,
  `app/services/s3_service.py`, and the routers `upload.py`, `list_files.py`,
  `get_file.py`.
* `SrcSrc` — the `src/` package: `src/services/s3_service.py` together with
  `src/controllers/file_operations_controller.py`.
* `ProjectRoot` — the `project-root` package: `app/utils/validation.py`.

File byte streams are modelled as a list of bytes together with a cursor
position (Python file objects support `seek`/`tell`); the external S3 backend
is modelled as a flat key/value store, and each SDK call takes an explicit
`SdkOutcome` describing whether the backend succeeds or raises one of its
documented error classes.  Python exception flow is modelled with `Except`
over an explicit exception datatype mirroring the exception classes the code
raises and catches.
-/

/-- Python file object as visible through `seek`/`tell`/sequential reads: the
byte content plus the current cursor position. -/
structure FileStream where
  content : List Nat
  pos : Nat
  deriving DecidableEq, Repr

/-- Bytes a sequential consumer (such as boto3 `upload_fileobj`) would read
from the stream: everything from the current cursor to the end. -/
def FileStream.readToEnd (s : FileStream) : List Nat :=
  s.content.drop s.pos

/-- FastAPI `UploadFile`: a filename, the client-declared content type, and
the underlying spooled file object. -/
structure UploadFile where
  filename : String
  content_type : String
  file : FileStream
  deriving DecidableEq, Repr

/-- Exception classes appearing in the embedded code.  All constructors model
subclasses of Python `Exception`; `clientError` carries the botocore error
code (e.g. "NoSuchKey") and message, `httpException` the HTTP status code and
detail of a FastAPI `HTTPException`. -/
inductive PyExn where
  | httpException (status_code : Nat) (detail : String)
  | valueError (msg : String)
  | fileNotFoundError (msg : String)
  | noCredentialsError
  | clientError (code : String) (msg : String)
  | exception (msg : String)
  deriving DecidableEq, Repr

/-- Python `str(e)` for the modelled exceptions, as used in f-string details. -/
def PyExn.text : PyExn → String
  | .httpException code detail => toString code ++ ": " ++ detail
  | .valueError m => m
  | .fileNotFoundError m => m
  | .noCredentialsError => "Unable to locate credentials"
  | .clientError _ m => m
  | .exception m => m

/-- Matches Python `except ValueError`. -/
def PyExn.isValueError : PyExn → Bool
  | .valueError _ => true
  | _ => false

/-- Matches Python `except FileNotFoundError`. -/
def PyExn.isFileNotFound : PyExn → Bool
  | .fileNotFoundError _ => true
  | _ => false

/-- Matches Python `except (BotoCoreError, ClientError)`: `NoCredentialsError`
is a `BotoCoreError` subclass and `clientError` models `ClientError`. -/
def PyExn.isBotoError : PyExn → Bool
  | .noCredentialsError => true
  | .clientError _ _ => true
  | _ => false

/-- Modelled from the spec: the external object-storage backend (spec section
6, "External collaborator"), a flat namespace of keyed byte objects with
put/list/get-by-key semantics and last-write-wins overwrite (spec section 3).
The backend itself is not part of the repository; only its client calls are. -/
structure S3Bucket where
  objects : List (String × List Nat)
  deriving DecidableEq, Repr

/-- Store `data` under `key`, overwriting any previous object under `key`. -/
def S3Bucket.putObject (b : S3Bucket) (key : String) (data : List Nat) : S3Bucket :=
  ⟨(key, data) :: b.objects.filter (fun kv => kv.1 ≠ key)⟩

/-- Look up the object stored under `key`, if any. -/
def S3Bucket.getObject (b : S3Bucket) (key : String) : Option (List Nat) :=
  (b.objects.find? (fun kv => kv.1 == key)).map (fun kv => kv.2)

/-- Keys currently present in the bucket. -/
def S3Bucket.listKeys (b : S3Bucket) : List String :=
  b.objects.map (fun kv => kv.1)

/-- Modelled from the spec: the failure modes the storage SDK can report on a
call (spec section 6 — missing credentials, or a backend-reported client
error carrying a message).  `ok` means the backend call succeeds. -/
inductive SdkOutcome where
  | ok
  | noCredentials
  | clientError (msg : String)
  deriving DecidableEq, Repr

/-- boto3 `s3_client.upload_fileobj(fileobj, bucket, key)`: reads the stream
from its current cursor to the end and stores the bytes under `key`; raises
`NoCredentialsError` or `ClientError` on backend failure. -/
def upload_fileobj (outcome : SdkOutcome) (b : S3Bucket) (stream : FileStream)
    (key : String) : Except PyExn S3Bucket :=
  match outcome with
  | .ok => .ok (b.putObject key stream.readToEnd)
  | .noCredentials => .error .noCredentialsError
  | .clientError m => .error (.clientError "ClientError" m)

/-- boto3 `s3_client.get_object(Bucket=..., Key=...)`: returns the object body
when the key exists, raises the `NoSuchKey` `ClientError` subclass when it
does not, and raises per `outcome` on backend failure. -/
def get_object (outcome : SdkOutcome) (b : S3Bucket) (key : String) :
    Except PyExn (List Nat) :=
  match outcome with
  | .ok =>
    match b.getObject key with
    | some body => .ok body
    | none => .error (.clientError "NoSuchKey" "The specified key does not exist.")
  | .noCredentials => .error .noCredentialsError
  | .clientError m => .error (.clientError "ClientError" m)

/-- boto3 `s3_client.list_objects_v2(Bucket=...)`: the response carries a
`Contents` list exactly when the bucket is non-empty (`none` models a response
without the `Contents` key). -/
def list_objects_v2 (outcome : SdkOutcome) (b : S3Bucket) :
    Except PyExn (Option (List (String × List Nat))) :=
  match outcome with
  | .ok => .ok (if b.objects.isEmpty then none else some b.objects)
  | .noCredentials => .error .noCredentialsError
  | .clientError m => .error (.clientError "ClientError" m)

/-- JSON string or string-list value in a response body. -/
inductive JsonVal where
  | s (v : String)
  | strs (v : List String)
  deriving DecidableEq, Repr

/-- Body of an HTTP response: a JSON object of named fields, or a streamed
byte body (`StreamingResponse`). -/
inductive HttpBody where
  | jsonObj (fields : List (String × JsonVal))
  | stream (data : List Nat)
  deriving DecidableEq, Repr

/-- HTTP response as observed by the client: status code and body. -/
structure Response where
  status_code : Nat
  body : HttpBody
  deriving DecidableEq, Repr

/-- Response FastAPI produces for a raised `HTTPException(status, detail)`. -/
def errResponse (status : Nat) (detail : String) : Response :=
  ⟨status, .jsonObj [("detail", .s detail)]⟩

namespace FastapiS3App

/-- ALLOWED_FILE_TYPES from `fastapi-s3-app/app/utils/validation.py`. -/
def ALLOWED_FILE_TYPES : List String := ["image/jpeg", "image/png", "application/pdf"]

/-- MAX_FILE_SIZE from `fastapi-s3-app/app/utils/validation.py` (5 MB). -/
def MAX_FILE_SIZE : Nat := 5 * 1024 * 1024

/-- validate_file_type from `fastapi-s3-app/app/utils/validation.py`: raises
`HTTPException(400, "Unsupported file type.")` when the declared content type
is not in the allow-list. -/
def validate_file_type (file : UploadFile) : Except PyExn Unit :=
  if file.content_type ∉ ALLOWED_FILE_TYPES then
    .error (.httpException 400 "Unsupported file type.")
  else
    .ok ()

/-- validate_file_size from `fastapi-s3-app/app/utils/validation.py`:
`file.file.seek(0, 2)` moves the cursor to the end, `tell()` reads the size,
`file.file.seek(0)` resets the cursor to the beginning, then sizes above
MAX_FILE_SIZE raise `HTTPException(400, ...)`.  Returns the validation result
together with the file in its post-call stream state. -/
def validate_file_size (file : UploadFile) : Except PyExn Unit × UploadFile :=
  let f1 : UploadFile := { file with file := { file.file with pos := file.file.content.length } }
  let file_size := f1.file.pos
  let f2 : UploadFile := { f1 with file := { f1.file with pos := 0 } }
  if file_size > MAX_FILE_SIZE then
    (.error (.httpException 400 "File size exceeds the maximum limit of 5 MB."), f2)
  else
    (.ok (), f2)

/-- Default bucket name of `S3Service.__init__` in
`fastapi-s3-app/app/services/s3_service.py`. -/
def default_bucket_name : String := "bucket-for-ai-generated-content"

/-- upload_file_to_s3 from `fastapi-s3-app/app/services/s3_service.py`: calls
`upload_fileobj`, on success returns the constructed URL
`https://` + bucket + `.s3.amazonaws.com/` + filename; `except
NoCredentialsError` re-raises `Exception("AWS credentials not available.")`,
`except ClientError` re-raises `Exception("Failed to upload file.")`. -/
def upload_file_to_s3 (bucket_name : String) (outcome : SdkOutcome) (b : S3Bucket)
    (file : UploadFile) : Except PyExn String × S3Bucket :=
  match upload_fileobj outcome b file.file file.filename with
  | .ok b2 =>
    (.ok ("https://" ++ bucket_name ++ ".s3.amazonaws.com/" ++ file.filename), b2)
  | .error .noCredentialsError =>
    (.error (.exception "AWS credentials not available."), b)
  | .error (.clientError _ _) =>
    (.error (.exception "Failed to upload file."), b)
  | .error e => (.error e, b)

/-- list_files_in_s3 from `fastapi-s3-app/app/services/s3_service.py`: returns
the `Key` of each `Contents` item, or `[]` when the response has no `Contents`;
`except ClientError` re-raises `Exception("Failed to list files.")` (other
exceptions propagate). -/
def list_files_in_s3 (outcome : SdkOutcome) (b : S3Bucket) :
    Except PyExn (List String) :=
  match list_objects_v2 outcome b with
  | .ok (some contents) => .ok (contents.map (fun item => item.1))
  | .ok none => .ok []
  | .error (.clientError _ _) => .error (.exception "Failed to list files.")
  | .error e => .error e

/-- get_file_from_s3 from `fastapi-s3-app/app/services/s3_service.py`: returns
the object body; `except NoSuchKey` (checked before the general `ClientError`
clause) raises `FileNotFoundError`, `except ClientError` raises
`Exception("Failed to retrieve file.")` (other exceptions propagate). -/
def get_file_from_s3 (outcome : SdkOutcome) (b : S3Bucket) (file_name : String) :
    Except PyExn (List Nat) :=
  match get_object outcome b file_name with
  | .ok body => .ok body
  | .error (.clientError code _) =>
    if code = "NoSuchKey" then
      .error (.fileNotFoundError ("File " ++ file_name ++ " not found."))
    else
      .error (.exception "Failed to retrieve file.")
  | .error e => .error e

/-- Exception translation of the `upload_file` route in
`fastapi-s3-app/app/routers/upload.py`.  The route wraps its whole body in
`try: ... except ValueError as ve: raise HTTPException(400, str(ve))
except Exception as e: raise HTTPException(500, "Internal Server Error")`.
Every modelled exception class is a Python `Exception` subclass — including
`HTTPException` raised by the validators — so anything that is not a
`ValueError` lands in the 500 branch. -/
def upload_exc_response (e : PyExn) : Response :=
  match e with
  | .valueError m => errResponse 400 m
  | _ => errResponse 500 "Internal Server Error"

/-- upload_file route from `fastapi-s3-app/app/routers/upload.py`:
`validate_file_type(file); validate_file_size(file);
file_url = s3_service.upload_file_to_s3(file)` then a 200 JSON body, with the
exception translation of `upload_exc_response`. -/
def upload_file_route (bucket_name : String) (outcome : SdkOutcome) (b : S3Bucket)
    (file : UploadFile) : Response × S3Bucket :=
  match validate_file_type file with
  | .error e => (upload_exc_response e, b)
  | .ok _ =>
    match validate_file_size file with
    | (.error e, _) => (upload_exc_response e, b)
    | (.ok _, file2) =>
      match upload_file_to_s3 bucket_name outcome b file2 with
      | (.ok url, b2) =>
        (⟨200, .jsonObj [("message", .s "File uploaded successfully"),
                         ("file_url", .s url)]⟩, b2)
      | (.error e, b2) => (upload_exc_response e, b2)

/-- list_files route from `fastapi-s3-app/app/routers/list_files.py`: a 200
JSON body with the listed files, and `except Exception` →
`HTTPException(500, "Internal Server Error")`. -/
def list_files_route (outcome : SdkOutcome) (b : S3Bucket) : Response :=
  match list_files_in_s3 outcome b with
  | .ok files => ⟨200, .jsonObj [("files", .strs files)]⟩
  | .error _ => errResponse 500 "Internal Server Error"

/-- get_file route from `fastapi-s3-app/app/routers/get_file.py`: streams the
body with 200; `except FileNotFoundError` → `HTTPException(404, "File not
found")`, `except Exception` → `HTTPException(500, "Internal Server Error")`. -/
def get_file_route (outcome : SdkOutcome) (b : S3Bucket) (file_name : String) :
    Response :=
  match get_file_from_s3 outcome b file_name with
  | .ok content => ⟨200, .stream content⟩
  | .error (.fileNotFoundError _) => errResponse 404 "File not found"
  | .error _ => errResponse 500 "Internal Server Error"

end FastapiS3App

namespace SrcSrc

/-- BUCKET_NAME from `src/controllers/file_operations_controller.py`. -/
def BUCKET_NAME : String := "bucket-for-ai-generated-content"

/-- upload_file from `src/services/s3_service.py`: calls `upload_fileobj`;
`except (BotoCoreError, ClientError)` logs and re-raises, so the service is
behaviourally the bare SDK call. -/
def upload_file (outcome : SdkOutcome) (b : S3Bucket) (file : UploadFile) :
    Except PyExn Unit × S3Bucket :=
  match upload_fileobj outcome b file.file file.filename with
  | .ok b2 => (.ok (), b2)
  | .error e => (.error e, b)

/-- list_files from `src/services/s3_service.py`: maps `Key` over
`response.get('Contents', [])`; `except (BotoCoreError, ClientError)` logs and
re-raises. -/
def list_files (outcome : SdkOutcome) (b : S3Bucket) : Except PyExn (List String) :=
  match list_objects_v2 outcome b with
  | .ok (some contents) => .ok (contents.map (fun item => item.1))
  | .ok none => .ok []
  | .error e => .error e

/-- get_file_content from `src/services/s3_service.py`: reads and returns the
object body (the Python decodes it as UTF-8 text; the byte list stands for
that text); `except (BotoCoreError, ClientError)` logs and re-raises.  There
is no `NoSuchKey` handling: the `NoSuchKey` `ClientError` raised for a missing
key is re-raised like any other backend error. -/
def get_file_content (outcome : SdkOutcome) (b : S3Bucket) (file_name : String) :
    Except PyExn (List Nat) :=
  match get_object outcome b file_name with
  | .ok body => .ok body
  | .error e => .error e

/-- get_file_content route from `src/controllers/file_operations_controller.py`:
200 JSON `content` on success; `except (BotoCoreError, ClientError)` raises
`HTTPException(500, f"Failed to retrieve file content: ...")` with `str(e)`
interpolated.  An exception outside that clause would escape the route
(`Except.error`). -/
def get_file_content_route (outcome : SdkOutcome) (b : S3Bucket)
    (file_name : String) : Except PyExn Response :=
  match get_file_content outcome b file_name with
  | .ok content => .ok ⟨200, .stream content⟩
  | .error e =>
    if e.isBotoError then
      .ok (errResponse 500 ("Failed to retrieve file content: " ++ e.text))
    else
      .error e

/-- upload_file route from `src/controllers/file_operations_controller.py`:
200 JSON message on success; `except (BotoCoreError, ClientError)` raises
`HTTPException(500, f"Failed to upload file: ...")` with `str(e)`
interpolated. -/
def upload_file_route (outcome : SdkOutcome) (b : S3Bucket) (file : UploadFile) :
    Except PyExn Response × S3Bucket :=
  match upload_file outcome b file with
  | (.ok _, b2) =>
    (.ok ⟨200, .jsonObj [("message", .s "File uploaded successfully.")]⟩, b2)
  | (.error e, b2) =>
    if e.isBotoError then
      (.ok (errResponse 500 ("Failed to upload file: " ++ e.text)), b2)
    else
      (.error e, b2)

end SrcSrc

namespace ProjectRoot

/-- ALLOWED_FILE_TYPES from `project-root/app/utils/validation.py`. -/
def ALLOWED_FILE_TYPES : List String := ["image/jpeg", "image/png", "application/pdf"]

/-- MAX_FILE_SIZE from `project-root/app/utils/validation.py` (5 MB). -/
def MAX_FILE_SIZE : Nat := 5 * 1024 * 1024

/-- Helper `_get_file_size` from `project-root/app/utils/validation.py`:
seek to end, `tell()`, seek back to the beginning; returns the size and the
file in its post-call stream state. -/
def get_file_size (file : UploadFile) : Nat × UploadFile :=
  let f1 : UploadFile := { file with file := { file.file with pos := file.file.content.length } }
  let size := f1.file.pos
  let f2 : UploadFile := { f1 with file := { f1.file with pos := 0 } }
  (size, f2)

/-- validate_file from `project-root/app/utils/validation.py`: type check
first (`HTTPException(400, "Invalid file type. ...")`), then size check via
`_get_file_size` (`HTTPException(400, "File size exceeds the 5 MB limit.")`). -/
def validate_file (file : UploadFile) : Except PyExn Unit × UploadFile :=
  if file.content_type ∉ ALLOWED_FILE_TYPES then
    (.error (.httpException 400 "Invalid file type. Allowed types are: JPEG, PNG, PDF."), file)
  else
    let (file_size, f2) := get_file_size file
    if file_size > MAX_FILE_SIZE then
      (.error (.httpException 400 "File size exceeds the 5 MB limit."), f2)
    else
      (.ok (), f2)

end ProjectRoot

/-- Storing an object and reading the same key back yields the stored bytes. -/
theorem S3Bucket.getObject_putObject_self (b : S3Bucket) (k : String) (v : List Nat) :
    (b.putObject k v).getObject k = some v := by
  simp [S3Bucket.putObject, S3Bucket.getObject, List.find?_cons_of_pos]

/-- Claim C1 (code_bug evidence): an upload whose file fails validation is
answered with HTTP 500, not 400.  The validator raises
`HTTPException(400, "Unsupported file type.")` for a disallowed declared
content type, but the route's `except Exception` clause catches that
`HTTPException` (only `ValueError` is mapped to 400) and re-raises
`HTTPException(500, "Internal Server Error")`; the bucket is left untouched. -/
theorem upload_route_validation_failure_returns_500 :
    FastapiS3App.validate_file_type ⟨"a.txt", "text/plain", ⟨[104, 105], 0⟩⟩
      = Except.error (PyExn.httpException 400 "Unsupported file type.") ∧
    (FastapiS3App.upload_file_route "bkt" .ok ⟨[]⟩
        ⟨"a.txt", "text/plain", ⟨[104, 105], 0⟩⟩).1
      = errResponse 500 "Internal Server Error" ∧
    (FastapiS3App.upload_file_route "bkt" .ok ⟨[]⟩
        ⟨"a.txt", "text/plain", ⟨[104, 105], 0⟩⟩).2 = ⟨[]⟩ :=
  ⟨rfl, by decide, by decide⟩

/-- Claim C2 (counterexample): in the `src/` variant, a Get for a key absent
from the bucket is answered with HTTP 500 carrying the backend error text, not
404: `get_file_content` re-raises the `NoSuchKey` `ClientError` and the
controller maps every `ClientError` to a 500 `HTTPException`. -/
theorem get_missing_key_src_src_variant_returns_500 :
    S3Bucket.getObject ⟨[]⟩ "missing.txt" = none ∧
    SrcSrc.get_file_content_route .ok ⟨[]⟩ "missing.txt"
      = Except.ok (errResponse 500
          "Failed to retrieve file content: The specified key does not exist.") :=
  ⟨rfl, rfl⟩

/-- Claim C2 (amended, for the `fastapi-s3-app` variant): a Get for any key
absent from the bucket is answered with HTTP 404 and the fixed detail
"File not found" — in particular never with 500. -/
theorem get_missing_key_returns_404 (b : S3Bucket) (name : String)
    (h : b.getObject name = none) :
    FastapiS3App.get_file_route .ok b name = errResponse 404 "File not found" := by
  simp [FastapiS3App.get_file_route, FastapiS3App.get_file_from_s3, get_object, h]

/-- Witness for `get_missing_key_returns_404` at the empty bucket. -/
theorem get_missing_key_returns_404_witness :
    FastapiS3App.get_file_route .ok ⟨[]⟩ "missing.txt"
      = errResponse 404 "File not found" :=
  get_missing_key_returns_404 ⟨[]⟩ "missing.txt" rfl

/-- Claim C7: listing an empty bucket succeeds with HTTP 200 and an empty
file list; the service returns `[]` rather than an error. -/
theorem list_files_route_empty_bucket :
    FastapiS3App.list_files_in_s3 .ok ⟨[]⟩ = Except.ok [] ∧
    FastapiS3App.list_files_route .ok ⟨[]⟩
      = ⟨200, .jsonObj [("files", .strs [])]⟩ :=
  ⟨rfl, rfl⟩

/-- Claim C10: a zero-byte file with an allow-listed declared content type
passes both validation checks, and the upload route proceeds to the storage
put — the empty object is stored and a 200 response returned. -/
theorem empty_file_passes_validation_and_uploads :
    FastapiS3App.validate_file_type ⟨"empty.png", "image/png", ⟨[], 0⟩⟩
      = Except.ok () ∧
    (FastapiS3App.validate_file_size ⟨"empty.png", "image/png", ⟨[], 0⟩⟩).1
      = Except.ok () ∧
    FastapiS3App.upload_file_route "bkt" .ok ⟨[]⟩ ⟨"empty.png", "image/png", ⟨[], 0⟩⟩
      = (⟨200, .jsonObj [("message", .s "File uploaded successfully"),
            ("file_url", .s "https://bkt.s3.amazonaws.com/empty.png")]⟩,
         ⟨[("empty.png", [])]⟩) :=
  ⟨rfl, rfl, by decide⟩

/-- Claim C4: size validation passes exactly when the byte size is at most
MAX_FILE_SIZE = 5·1024·1024 and fails with the 400 validation error exactly
when it is larger; in particular a file of exactly MAX_FILE_SIZE bytes is
accepted and one of MAX_FILE_SIZE + 1 bytes is rejected. -/
theorem validate_file_size_boundary (f : UploadFile) :
    ((FastapiS3App.validate_file_size f).1 = Except.ok ()
      ↔ f.file.content.length ≤ FastapiS3App.MAX_FILE_SIZE) ∧
    ((FastapiS3App.validate_file_size f).1
        = Except.error (PyExn.httpException 400
            "File size exceeds the maximum limit of 5 MB.")
      ↔ FastapiS3App.MAX_FILE_SIZE < f.file.content.length) ∧
    (FastapiS3App.validate_file_size
        { f with file := ⟨List.replicate FastapiS3App.MAX_FILE_SIZE 0, 0⟩ }).1
      = Except.ok () ∧
    (FastapiS3App.validate_file_size
        { f with file := ⟨List.replicate (FastapiS3App.MAX_FILE_SIZE + 1) 0, 0⟩ }).1
      = Except.error (PyExn.httpException 400
          "File size exceeds the maximum limit of 5 MB.") := by
  refine ⟨?_, ?_, ?_, ?_⟩ <;>
    simp only [FastapiS3App.validate_file_size, List.length_replicate] <;>
    by_cases h : f.file.content.length > FastapiS3App.MAX_FILE_SIZE <;>
    simp [h] <;> omega

/-- Claim C5: type validation fails (with the 400 "Unsupported file type."
error) exactly when the declared content type is outside the allow-list
{image/jpeg, image/png, application/pdf}, passes exactly when it is in the
allow-list, and depends only on the declared content type — two files with
the same declared type validate identically regardless of their bytes. -/
theorem validate_file_type_allowlist (f : UploadFile) :
    (FastapiS3App.validate_file_type f
        = Except.error (PyExn.httpException 400 "Unsupported file type.")
      ↔ f.content_type ∉ FastapiS3App.ALLOWED_FILE_TYPES) ∧
    (FastapiS3App.validate_file_type f = Except.ok ()
      ↔ f.content_type ∈ FastapiS3App.ALLOWED_FILE_TYPES) ∧
    ∀ g : UploadFile, g.content_type = f.content_type →
      FastapiS3App.validate_file_type g = FastapiS3App.validate_file_type f := by
  refine ⟨?_, ?_, ?_⟩
  · by_cases h : f.content_type ∈ FastapiS3App.ALLOWED_FILE_TYPES <;>
      simp [FastapiS3App.validate_file_type, h]
  · by_cases h : f.content_type ∈ FastapiS3App.ALLOWED_FILE_TYPES <;>
      simp [FastapiS3App.validate_file_type, h]
  · intro g hg
    simp [FastapiS3App.validate_file_type, hg]

/-- Witness for `validate_file_type_allowlist`: a JPEG-typed file with bytes
validates exactly like an empty file with the same declared type, and both
pass. -/
theorem validate_file_type_allowlist_witness :
    FastapiS3App.validate_file_type ⟨"a.jpg", "image/jpeg", ⟨[7, 8, 9], 1⟩⟩
      = FastapiS3App.validate_file_type ⟨"b.jpg", "image/jpeg", ⟨[], 0⟩⟩ ∧
    FastapiS3App.validate_file_type ⟨"b.jpg", "image/jpeg", ⟨[], 0⟩⟩
      = Except.ok () :=
  ⟨(validate_file_type_allowlist ⟨"b.jpg", "image/jpeg", ⟨[], 0⟩⟩).2.2
      ⟨"a.jpg", "image/jpeg", ⟨[7, 8, 9], 1⟩⟩ rfl,
   rfl⟩

/-- Claim C9: the size check probes the length by seeking to the end and back
and, whether it passes or fails, leaves the stream cursor at the beginning
with the content untouched, so a sequential read afterwards — in particular
the boto3 put — consumes the full byte content. -/
theorem validate_file_size_stream_frame (f : UploadFile) (b : S3Bucket) (k : String) :
    ((FastapiS3App.validate_file_size f).1 = Except.ok ()
      ↔ f.file.content.length ≤ FastapiS3App.MAX_FILE_SIZE) ∧
    (FastapiS3App.validate_file_size f).2.file.pos = 0 ∧
    (FastapiS3App.validate_file_size f).2.file.content = f.file.content ∧
    (FastapiS3App.validate_file_size f).2.file.readToEnd = f.file.content ∧
    (FastapiS3App.validate_file_size f).2.filename = f.filename ∧
    (FastapiS3App.validate_file_size f).2.content_type = f.content_type ∧
    upload_fileobj .ok b (FastapiS3App.validate_file_size f).2.file k
      = Except.ok (b.putObject k f.file.content) := by
  refine ⟨?_, ?_⟩ <;>
    by_cases h : f.file.content.length > FastapiS3App.MAX_FILE_SIZE <;>
    simp [FastapiS3App.validate_file_size, FileStream.readToEnd, upload_fileobj, h] <;>
    omega

/-- Claim C3 (counterexample): in the `src/` variant, the 500 response for a
backend failure during put embeds the raw exception text in its detail —
different backend error texts produce different client-visible bodies. -/
theorem upload_backend_error_detail_leaks :
    (SrcSrc.upload_file_route (.clientError "boom") ⟨[]⟩
        ⟨"a.png", "image/png", ⟨[1], 0⟩⟩).1
      = Except.ok (errResponse 500 "Failed to upload file: boom") ∧
    (SrcSrc.upload_file_route (.clientError "quux") ⟨[]⟩
        ⟨"a.png", "image/png", ⟨[1], 0⟩⟩).1
      = Except.ok (errResponse 500 "Failed to upload file: quux") :=
  ⟨rfl, rfl⟩

/-- Claim C3 (amended, for the `fastapi-s3-app` variant): every backend
failure during put, list or get is answered with HTTP 500 and the fixed
generic detail "Internal Server Error", independent of the backend exception
text `m`. -/
theorem backend_error_responses_are_generic (bn m : String) (b : S3Bucket)
    (f : UploadFile) (name : String)
    (h1 : f.content_type ∈ FastapiS3App.ALLOWED_FILE_TYPES)
    (h2 : f.file.content.length ≤ FastapiS3App.MAX_FILE_SIZE) :
    (FastapiS3App.upload_file_route bn (.clientError m) b f).1
      = errResponse 500 "Internal Server Error" ∧
    (FastapiS3App.upload_file_route bn .noCredentials b f).1
      = errResponse 500 "Internal Server Error" ∧
    FastapiS3App.list_files_route (.clientError m) b
      = errResponse 500 "Internal Server Error" ∧
    FastapiS3App.get_file_route (.clientError m) b name
      = errResponse 500 "Internal Server Error" := by
  have h2' : ¬ f.file.content.length > FastapiS3App.MAX_FILE_SIZE := by omega
  refine ⟨?_, ?_, rfl, rfl⟩ <;>
    simp [FastapiS3App.upload_file_route, FastapiS3App.validate_file_type,
      FastapiS3App.validate_file_size, FastapiS3App.upload_file_to_s3,
      upload_fileobj, FastapiS3App.upload_exc_response, h1, h2']

/-- Witness for `backend_error_responses_are_generic` at a small PNG upload
and the backend error text "boom". -/
theorem backend_error_responses_are_generic_witness :
    (FastapiS3App.upload_file_route "bkt" (.clientError "boom") ⟨[]⟩
        ⟨"a.png", "image/png", ⟨[1], 0⟩⟩).1
      = errResponse 500 "Internal Server Error" ∧
    (FastapiS3App.upload_file_route "bkt" .noCredentials ⟨[]⟩
        ⟨"a.png", "image/png", ⟨[1], 0⟩⟩).1
      = errResponse 500 "Internal Server Error" ∧
    FastapiS3App.list_files_route (.clientError "boom") ⟨[]⟩
      = errResponse 500 "Internal Server Error" ∧
    FastapiS3App.get_file_route (.clientError "boom") ⟨[]⟩ "x"
      = errResponse 500 "Internal Server Error" :=
  backend_error_responses_are_generic "bkt" "boom" ⟨[]⟩
    ⟨"a.png", "image/png", ⟨[1], 0⟩⟩ "x" (by decide) (by decide)

/-- Claim C6: uploading a file whose validation succeeds stores its full byte
content under its filename, and a subsequent Get of that key streams back
exactly those bytes with HTTP 200. -/
theorem upload_then_get_roundtrip (bn : String) (b : S3Bucket) (f : UploadFile)
    (h1 : f.content_type ∈ FastapiS3App.ALLOWED_FILE_TYPES)
    (h2 : f.file.content.length ≤ FastapiS3App.MAX_FILE_SIZE) :
    (FastapiS3App.upload_file_route bn .ok b f).1.status_code = 200 ∧
    FastapiS3App.get_file_route .ok (FastapiS3App.upload_file_route bn .ok b f).2
        f.filename
      = ⟨200, .stream f.file.content⟩ := by
  have h2' : ¬ f.file.content.length > FastapiS3App.MAX_FILE_SIZE := by omega
  have hstore : (FastapiS3App.upload_file_route bn .ok b f).2
      = b.putObject f.filename f.file.content := by
    simp [FastapiS3App.upload_file_route, FastapiS3App.validate_file_type,
      FastapiS3App.validate_file_size, FastapiS3App.upload_file_to_s3,
      upload_fileobj, FileStream.readToEnd, h1, h2']
  refine ⟨?_, ?_⟩
  · simp [FastapiS3App.upload_file_route, FastapiS3App.validate_file_type,
      FastapiS3App.validate_file_size, FastapiS3App.upload_file_to_s3,
      upload_fileobj, h1, h2']
  · rw [hstore]
    simp [FastapiS3App.get_file_route, FastapiS3App.get_file_from_s3, get_object,
      S3Bucket.getObject_putObject_self]

/-- Witness for `upload_then_get_roundtrip`: a three-byte PNG (with a nonzero
initial cursor) uploaded to an empty bucket is returned byte-for-byte. -/
theorem upload_then_get_roundtrip_witness :
    (FastapiS3App.upload_file_route "bkt" .ok ⟨[]⟩
        ⟨"a.png", "image/png", ⟨[1, 2, 3], 2⟩⟩).1.status_code = 200 ∧
    FastapiS3App.get_file_route .ok
        (FastapiS3App.upload_file_route "bkt" .ok ⟨[]⟩
          ⟨"a.png", "image/png", ⟨[1, 2, 3], 2⟩⟩).2 "a.png"
      = ⟨200, .stream [1, 2, 3]⟩ :=
  upload_then_get_roundtrip "bkt" ⟨[]⟩ ⟨"a.png", "image/png", ⟨[1, 2, 3], 2⟩⟩
    (by decide) (by decide)

/-- Claim C8: a successful upload returns the URL
`https://` + bucket + `.s3.amazonaws.com/` + filename, a deterministic
function of the bucket name and filename alone: two successful uploads with
the same bucket and filename yield the same URL whatever their bytes, their
declared content types, or the prior bucket contents (the SDK response
carries no data the URL could depend on). -/
theorem upload_url_deterministic (bn : String) (b1 b2 : S3Bucket)
    (f1 f2 : UploadFile) (u1 u2 : String)
    (h1 : (FastapiS3App.upload_file_to_s3 bn .ok b1 f1).1 = Except.ok u1)
    (h2 : (FastapiS3App.upload_file_to_s3 bn .ok b2 f2).1 = Except.ok u2)
    (hname : f1.filename = f2.filename) :
    u1 = u2 ∧ u1 = "https://" ++ bn ++ ".s3.amazonaws.com/" ++ f1.filename := by
  simp only [FastapiS3App.upload_file_to_s3, upload_fileobj,
    Except.ok.injEq] at h1 h2
  constructor
  · rw [← h1, ← h2, hname]
  · rw [← h1]

/-- Witness for `upload_url_deterministic`: two uploads of different bytes and
declared types, into different prior bucket states, under the same bucket name
and filename. -/
theorem upload_url_deterministic_witness :
    (FastapiS3App.upload_file_to_s3 "bkt" .ok ⟨[]⟩
        ⟨"a.png", "image/png", ⟨[1, 2, 3], 0⟩⟩).1
      = Except.ok "https://bkt.s3.amazonaws.com/a.png" ∧
    "https://bkt.s3.amazonaws.com/a.png"
      = "https://" ++ "bkt" ++ ".s3.amazonaws.com/" ++ "a.png" := by
  refine ⟨rfl, ?_⟩
  exact (upload_url_deterministic "bkt" ⟨[]⟩ ⟨[("x", [0])]⟩
    ⟨"a.png", "image/png", ⟨[1, 2, 3], 0⟩⟩
    ⟨"a.png", "application/pdf", ⟨[9], 0⟩⟩
    "https://bkt.s3.amazonaws.com/a.png" "https://bkt.s3.amazonaws.com/a.png"
    rfl rfl rfl).2
